import Mathlib

/-!
Shallow embedding of the control core of the redis-foxtrot-autoscaler
Kubernetes operator (Go), together with proofs about its autoscaling
decision logic, scaling protocols and spec validation.

Conventions of the embedding:
* Go `int32` fields are modelled as `Int` (no arithmetic in the embedded
  code comes near the 32-bit boundary).
* Go `float64` metric values are modelled as `ℚ`; the code only ever
  compares them, never does arithmetic on them, so this is exact.
* Kubernetes API reads (StatefulSet state, Job lookups, Pod state,
  Prometheus query results, the current wall-clock time) are passed in as
  an explicit environment `Env`; `Get` calls that can return not-found are
  modelled as `Option`.  Transient API errors are outside the model: every
  embedded tick is the behaviour of the Go function when its reads and
  writes succeed (write errors only cause an early return in the source).
* Writes performed by a tick (spec update, status update, job create and
  delete, StatefulSet reconciliation) are recorded in order in an
  `Action` trace.
-/

namespace RedisAutoscaler

/-- CPU and memory metrics for a single Redis pod (struct PodLoad in
autoscaler.go). -/
structure PodLoad where
  PodName : String
  CPUUsage : ℚ
  MemoryUsage : ℚ
  deriving Repr, DecidableEq, Inhabited

/-- Desired state of a Redis cluster (RedisClusterSpec in the API types
file), restricted to the fields the control core reads. -/
structure RedisClusterSpec where
  Masters : Int
  MinMasters : Int
  ReplicasPerMaster : Int
  RedisVersion : String
  AutoScaleEnabled : Bool
  CpuThreshold : Int
  CpuThresholdLow : Int
  MemoryThreshold : Int
  MemoryThresholdLow : Int
  ReshardTimeoutSeconds : Int
  ScaleCooldownSeconds : Int
  PrometheusURL : String
  MetricsQueryInterval : Int
  ExistingCluster : Bool
  PodSelector : List (String × String)
  ServiceName : String
  ManageStatefulSet : Bool
  StatefulSetName : String
  deriving Repr, DecidableEq

/-- Observed state of a Redis cluster (RedisClusterStatus in the API types
file).  `metav1.Time` values are modelled as abstract `Int` timestamps. -/
structure RedisClusterStatus where
  CurrentMasters : Int
  CurrentReplicas : Int
  Initialized : Bool
  IsResharding : Bool
  IsProvisioningStandby : Bool
  IsDraining : Bool
  LastScaleTime : Option Int
  StandbyPod : String
  OverloadedPod : String
  PodToDrain : String
  DrainDestPod1 : String
  DrainDestPod2 : String
  deriving Repr, DecidableEq

/-- A RedisCluster object: metadata name and namespace plus spec and
status sub-records. -/
structure RedisCluster where
  Name : String
  Namespace : String
  Spec : RedisClusterSpec
  Status : RedisClusterStatus
  deriving Repr, DecidableEq

/-- Pod name of ordinal `i` of a cluster: the Go code formats it as
`fmt.Sprintf("%s-%d", clusterName, i)`. -/
def podNameOf (clusterName : String) (i : Int) : String :=
  clusterName ++ "-" ++ toString i

/-! ### Decision engine (autoscaler.go) -/

/-- The scale-up trigger test on one pod: CPU above `CpuThreshold` or
memory above `MemoryThreshold` (the loop condition in
checkScaleUpCondition). -/
def podExceeds (spec : RedisClusterSpec) (pod : PodLoad) : Bool :=
  decide ((spec.CpuThreshold : ℚ) < pod.CPUUsage) ||
    decide ((spec.MemoryThreshold : ℚ) < pod.MemoryUsage)

/-- The loop body of checkScaleUpCondition: walk the pod list carrying the
`triggered` flag and the current `triggerPod`; an exceeding pod replaces
the carried pod when the carried pod name is still empty (the zero value
used as the unset sentinel) or when it has strictly higher memory. -/
def scaleUpScan (spec : RedisClusterSpec) :
    List PodLoad → Bool → PodLoad → Bool × PodLoad
  | [], triggered, triggerPod => (triggered, triggerPod)
  | pod :: rest, triggered, triggerPod =>
    if podExceeds spec pod then
      let triggerPod' :=
        if triggerPod.PodName = "" ∨ triggerPod.MemoryUsage < pod.MemoryUsage then
          pod
        else
          triggerPod
      scaleUpScan spec rest true triggerPod'
    else
      scaleUpScan spec rest triggered triggerPod

/-- The reason string reported by checkScaleUpCondition, abstracted to
which branch of the if/else chain produced it. -/
inductive ScaleUpReason where
  | cpuAndMemoryOverloaded
  | cpuOverloaded
  | memoryOverloaded
  deriving Repr, DecidableEq

/-- checkScaleUpCondition: returns whether scale-up is needed, the
triggering pod, and the reason (autoscaler.go). -/
def checkScaleUpCondition (spec : RedisClusterSpec) (podLoads : List PodLoad) :
    Bool × PodLoad × Option ScaleUpReason :=
  let res := scaleUpScan spec podLoads false default
  if res.1 then
    let triggerPod := res.2
    let reason :=
      if decide ((spec.CpuThreshold : ℚ) < triggerPod.CPUUsage) &&
          decide ((spec.MemoryThreshold : ℚ) < triggerPod.MemoryUsage) then
        ScaleUpReason.cpuAndMemoryOverloaded
      else if decide ((spec.CpuThreshold : ℚ) < triggerPod.CPUUsage) then
        ScaleUpReason.cpuOverloaded
      else
        ScaleUpReason.memoryOverloaded
    (true, triggerPod, some reason)
  else
    (false, default, none)

/-- The underutilization test on one pod: CPU below `CpuThresholdLow` and
memory below `MemoryThresholdLow` (the loop condition in
checkScaleDownCondition). -/
def podUnderutilized (spec : RedisClusterSpec) (pod : PodLoad) : Bool :=
  decide (pod.CPUUsage < (spec.CpuThresholdLow : ℚ)) &&
    decide (pod.MemoryUsage < (spec.MemoryThresholdLow : ℚ))

/-- The counting loop of checkScaleDownCondition. -/
def countUnderutilized (spec : RedisClusterSpec) : List PodLoad → Int
  | [] => 0
  | pod :: rest =>
    if podUnderutilized spec pod then
      countUnderutilized spec rest + 1
    else
      countUnderutilized spec rest

/-- checkScaleDownCondition: scale down when the master count is above the
minimum and at least 2 pods are underutilized (autoscaler.go).  The
second component models the non-empty reason string by carrying the
underutilized count. -/
def checkScaleDownCondition (spec : RedisClusterSpec) (podLoads : List PodLoad) :
    Bool × Option Int :=
  if spec.Masters ≤ spec.MinMasters then
    (false, none)
  else
    let underutilizedCount := countUnderutilized spec podLoads
    if 2 ≤ underutilizedCount then
      (true, some underutilizedCount)
    else
      (false, none)

/-! ### Scale-down targeting (triggerScaleDown in autoscaler.go) -/

/-- Strip a literal character prefix, returning the remainder when the
prefix matches. -/
def dropPrefixChars : List Char → List Char → Option (List Char)
  | [], s => some s
  | _ :: _, [] => none
  | p :: ps, ch :: cs => if p = ch then dropPrefixChars ps cs else none

/-- The leading run of decimal digits. -/
def takeDigitChars : List Char → List Char
  | [] => []
  | ch :: cs => if ch.isDigit then ch :: takeDigitChars cs else []

/-- Decimal value of a digit run. -/
def digitsVal (ds : List Char) : Nat :=
  ds.foldl (fun acc ch => acc * 10 + (ch.toNat - 48)) 0

/-- Model of `fmt.Sscanf(podName, clusterName+"-%d", &podIndex)`: the
literal prefix `clusterName ++ "-"` must match, then a run of decimal
digits is read (at least one digit, trailing text ignored). -/
def parsePodIndex (clusterName podName : String) : Option Int :=
  match dropPrefixChars (clusterName ++ "-").data podName.data with
  | none => none
  | some rest =>
    match takeDigitChars rest with
    | [] => none
    | ds => some ((digitsVal ds : Nat) : Int)

/-- The master-pod filter of triggerScaleDown: keep the loads whose pod
name parses as `clusterName-<i>` with `i` divisible by
`1 + ReplicasPerMaster`. -/
def masterLoadsOf (clusterName : String) (replicasPerMaster : Int)
    (podLoads : List PodLoad) : List PodLoad :=
  podLoads.filter fun load =>
    match parsePodIndex clusterName load.PodName with
    | some podIndex => podIndex % (1 + replicasPerMaster) == 0
    | none => false

/-- Memory ordering on pod loads, the comparator that triggerScaleDown
sorts by (the Go code sorts with the strict comparator
`MemoryUsage < MemoryUsage` via an unstable sort; we sort with the
reflexive closure, which produces the same nondecreasing order up to the
unspecified tie order). -/
def memLE (a b : PodLoad) : Prop := a.MemoryUsage ≤ b.MemoryUsage

instance : DecidableRel memLE := fun a b =>
  inferInstanceAs (Decidable (a.MemoryUsage ≤ b.MemoryUsage))

instance : IsTotal PodLoad memLE := ⟨fun a b => le_total a.MemoryUsage b.MemoryUsage⟩

instance : IsTrans PodLoad memLE := ⟨fun _ _ _ hab hbc => le_trans hab hbc⟩

/-- The victim chosen by triggerScaleDown: the pod at ordinal
`(Masters - 1) * (1 + ReplicasPerMaster)`, the highest-index active
master. -/
def highestActiveMasterName (c : RedisCluster) : String :=
  podNameOf c.Name ((c.Spec.Masters - 1) * (1 + c.Spec.ReplicasPerMaster))

/-- The drain witnesses recorded in status by triggerScaleDown. -/
structure DrainPlan where
  PodToDrain : String
  DrainDestPod1 : String
  DrainDestPod2 : String
  deriving Repr, DecidableEq

/-- The targeting logic of triggerScaleDown: filter master pods, require
at least two of them, sort by memory, take the two lowest as destinations
unless the victim is one of them, in which case the single other
low-memory pod is the destination.  `none` models the requeue taken when
fewer than two master loads are available. -/
def triggerScaleDownPlan (c : RedisCluster) (podLoads : List PodLoad) :
    Option DrainPlan :=
  let highestIndexPod := highestActiveMasterName c
  let masterLoads := masterLoadsOf c.Name c.Spec.ReplicasPerMaster podLoads
  if masterLoads.length < 2 then
    none
  else
    match List.insertionSort memLE masterLoads with
    | p0 :: p1 :: _ =>
      let lowestUtil1 := p0.PodName
      let lowestUtil2 := p1.PodName
      if highestIndexPod ≠ lowestUtil1 ∧ highestIndexPod ≠ lowestUtil2 then
        some ⟨highestIndexPod, lowestUtil1, lowestUtil2⟩
      else if highestIndexPod = lowestUtil1 then
        some ⟨highestIndexPod, lowestUtil2, ""⟩
      else
        some ⟨highestIndexPod, lowestUtil1, ""⟩
    | _ => none

/-! ### Environment and write traces for the reconciliation ticks -/

/-- Succeeded and Failed counters of a Kubernetes Job as observed by the
controller. -/
structure JobStatus where
  Succeeded : Int
  Failed : Int
  deriving Repr, DecidableEq

/-- Observed state of the new standby pod during provisioning. -/
structure PodObs where
  Running : Bool
  Ready : Bool
  deriving Repr, DecidableEq

/-- Everything a tick reads from the Kubernetes API and Prometheus:
StatefulSet replica counts, job lookups (`none` is not-found), the new
standby pod lookup, the health-gate verdict, the Prometheus query
results, and the current time. -/
structure Env where
  stsSpecReplicas : Int
  stsReadyReplicas : Int
  reshardJob : Option JobStatus
  drainJob : Option JobStatus
  cleanupJob : Option JobStatus
  joinJob : Option JobStatus
  standbyPodObs : Option PodObs
  healthy : Bool
  healthRequeueSeconds : Int
  reshardJobRunning : Bool
  cpuVec : List (String × ℚ)
  memVec : List (String × ℚ)
  now : Int
  deriving Repr, DecidableEq

/-- A write performed by a tick, in program order: an update of the
RedisCluster spec (`r.Update`), an update of its status
(`r.Status().Update`), a StatefulSet reconciliation, or a job create or
delete. -/
inductive Action where
  | specUpdate (s : RedisClusterSpec)
  | statusUpdate (st : RedisClusterStatus)
  | reconcileSts
  | createJob (name : String)
  | deleteJob (name : String)
  deriving Repr, DecidableEq

/-- Whether an action creates a job. -/
def Action.isCreateJob : Action → Bool
  | Action.createJob _ => true
  | _ => false

/-- Model of ctrl.Result: an immediate requeue flag and a RequeueAfter
delay in seconds (0 when unset). -/
structure ReconcileResult where
  Requeue : Bool
  RequeueAfterSeconds : Int
  deriving Repr, DecidableEq

/-- RequeueAfter result. -/
def requeueAfter (s : Int) : ReconcileResult := ⟨false, s⟩

/-- Requeue-immediately result. -/
def requeueNow : ReconcileResult := ⟨true, 0⟩

/-- Empty ctrl.Result. -/
def emptyResult : ReconcileResult := ⟨false, 0⟩

/-- The outcome of one tick: the cluster object as mutated in memory, the
ordered write trace, the returned ctrl.Result and the returned error. -/
structure TickOut where
  cluster : RedisCluster
  actions : List Action
  result : ReconcileResult
  error : Option String
  deriving Repr, DecidableEq

/-! ### Scale-up protocol tick (checkReshardingStatus in upscale.go) -/

/-- checkReshardingStatus: wait for the StatefulSet, create the reshard
job when missing (abandoning the protocol when its witness fields are
incomplete), and on job completion increment Masters (spec write first),
reconcile the StatefulSet, and move to standby provisioning (status write
second). -/
def checkReshardingStatus (c : RedisCluster) (env : Env) : TickOut :=
  let desiredTotalReplicas := (c.Spec.Masters + 1) * (1 + c.Spec.ReplicasPerMaster)
  if env.stsSpecReplicas ≠ desiredTotalReplicas then
    ⟨c, [], requeueAfter 5, none⟩
  else if env.stsReadyReplicas ≠ desiredTotalReplicas then
    ⟨c, [], requeueAfter 10, none⟩
  else
    match env.reshardJob with
    | none =>
      if c.Status.OverloadedPod = "" then
        let st := { c.Status with IsResharding := false }
        ⟨{ c with Status := st }, [Action.statusUpdate st], emptyResult, none⟩
      else if c.Status.StandbyPod = "" then
        let st := { c.Status with IsResharding := false }
        ⟨{ c with Status := st }, [Action.statusUpdate st], emptyResult, none⟩
      else
        ⟨c, [Action.createJob (c.Name ++ "-reshard")], requeueNow, none⟩
    | some reshardJob =>
      if 0 < reshardJob.Succeeded then
        let sp := { c.Spec with Masters := c.Spec.Masters + 1 }
        let st := { c.Status with
          IsResharding := false
          IsProvisioningStandby := true
          OverloadedPod := ""
          LastScaleTime := some env.now }
        ⟨{ c with Spec := sp, Status := st },
          [Action.specUpdate sp, Action.reconcileSts, Action.statusUpdate st,
            Action.deleteJob (c.Name ++ "-reshard")],
          requeueAfter 5, none⟩
      else if 0 < reshardJob.Failed then
        let st := { c.Status with IsResharding := false, OverloadedPod := "" }
        ⟨{ c with Status := st },
          [Action.deleteJob (c.Name ++ "-reshard"), Action.statusUpdate st],
          requeueAfter 1, none⟩
      else
        ⟨c, [], requeueAfter 15, none⟩

/-! ### Scale-down protocol tick (checkDrainStatus in downscale.go) -/

/-- Status record with the draining flag and all three drain witness
fields cleared, as written by every abandonment branch of
checkDrainStatus. -/
def clearDrainStatus (st : RedisClusterStatus) : RedisClusterStatus :=
  { st with
    IsDraining := false
    PodToDrain := ""
    DrainDestPod1 := ""
    DrainDestPod2 := "" }

/-- checkDrainStatus: create the drain job when missing (abandoning when
the drain info is incomplete or the victim is the tracked standby), then
drive the cleanup-standby job, and on completion of both decrement
Masters (spec write first), rotate the standby to the drained pod and
clear the witnesses (status write second). -/
def checkDrainStatus (c : RedisCluster) (env : Env) : TickOut :=
  match env.drainJob with
  | none =>
    let podName := c.Status.PodToDrain
    let destPod1 := c.Status.DrainDestPod1
    if podName = "" ∨ destPod1 = "" then
      let st := clearDrainStatus c.Status
      ⟨{ c with Status := st }, [Action.statusUpdate st], emptyResult, none⟩
    else if podName = c.Status.StandbyPod then
      let st := clearDrainStatus c.Status
      ⟨{ c with Status := st }, [Action.statusUpdate st], emptyResult, none⟩
    else
      ⟨c, [Action.createJob (c.Name ++ "-drain")], requeueNow, none⟩
  | some drainJob =>
    if 0 < drainJob.Succeeded then
      let drainedPod := c.Status.PodToDrain
      match env.cleanupJob with
      | none =>
        ⟨c, [Action.createJob (c.Name ++ "-cleanup-standby")], requeueAfter 5, none⟩
      | some cleanupJob =>
        if cleanupJob.Succeeded = 0 ∧ cleanupJob.Failed = 0 then
          ⟨c, [], requeueAfter 5, none⟩
        else if 0 < cleanupJob.Failed then
          ⟨c, [Action.deleteJob (c.Name ++ "-cleanup-standby")], requeueAfter 10, none⟩
        else
          let sp := { c.Spec with Masters := c.Spec.Masters - 1 }
          let st := { c.Status with
            StandbyPod := drainedPod
            IsDraining := false
            PodToDrain := ""
            DrainDestPod1 := ""
            DrainDestPod2 := ""
            LastScaleTime := some env.now }
          ⟨{ c with Spec := sp, Status := st },
            [Action.specUpdate sp, Action.reconcileSts, Action.statusUpdate st,
              Action.deleteJob (c.Name ++ "-drain"),
              Action.deleteJob (c.Name ++ "-cleanup-standby")],
            emptyResult, none⟩
    else if 0 < drainJob.Failed then
      let st := clearDrainStatus c.Status
      ⟨{ c with Status := st },
        [Action.deleteJob (c.Name ++ "-drain"), Action.statusUpdate st],
        requeueAfter 1, none⟩
    else
      ⟨c, [], requeueAfter 30, none⟩

/-! ### Standby provisioning tick (checkProvisioningStatus in
provision_standby.go) -/

/-- checkProvisioningStatus: wait for the new standby pod to be running
and ready, create the join-nodes job, and on completion record the new
standby pod and leave the provisioning state; on job failure clear the
provisioning flag and retry from monitoring. -/
def checkProvisioningStatus (c : RedisCluster) (env : Env) : TickOut :=
  let newStandbyIndex := c.Spec.Masters * (1 + c.Spec.ReplicasPerMaster)
  let newStandbyPod := podNameOf c.Name newStandbyIndex
  match env.standbyPodObs with
  | none => ⟨c, [], requeueAfter 5, none⟩
  | some podObs =>
    if ¬ podObs.Running then
      ⟨c, [], requeueAfter 5, none⟩
    else if ¬ podObs.Ready then
      ⟨c, [], requeueAfter 5, none⟩
    else
      match env.joinJob with
      | none =>
        ⟨c, [Action.createJob (c.Name ++ "-join-nodes")], requeueAfter 5, none⟩
      | some joinJob =>
        if 0 < joinJob.Succeeded then
          let st := { c.Status with
            StandbyPod := newStandbyPod
            IsProvisioningStandby := false }
          ⟨{ c with Status := st },
            [Action.statusUpdate st, Action.deleteJob (c.Name ++ "-join-nodes")],
            requeueNow, none⟩
        else if 0 < joinJob.Failed then
          let st := { c.Status with IsProvisioningStandby := false }
          ⟨{ c with Status := st },
            [Action.deleteJob (c.Name ++ "-join-nodes"), Action.statusUpdate st],
            requeueAfter 10, none⟩
        else
          ⟨c, [], requeueAfter 10, none⟩

/-! ### Metrics monitoring (monitorMetrics and the query helpers in
autoscaler.go) -/

/-- queryCPUMetrics: an empty Prometheus result vector is an error
(`no CPU metrics data available`); otherwise the vector becomes the pod
name to CPU value map.  The map is modelled by the entry list itself. -/
def queryCPUMetrics (cpuVec : List (String × ℚ)) :
    Except String (List (String × ℚ)) :=
  if cpuVec = [] then
    Except.error "no CPU metrics data available"
  else
    Except.ok cpuVec

/-- queryMemoryMetrics: same shape as the CPU query. -/
def queryMemoryMetrics (memVec : List (String × ℚ)) :
    Except String (List (String × ℚ)) :=
  if memVec = [] then
    Except.error "no memory metrics data available"
  else
    Except.ok memVec

/-- The join loop of queryPodMetrics: walk the CPU map, skip the standby
pod, skip pods with no memory sample, and build the PodLoad list. -/
def joinPodLoads (standbyPod : String) (memoryMap : List (String × ℚ)) :
    List (String × ℚ) → List PodLoad
  | [] => []
  | (podName, cpuUsage) :: rest =>
    if podName = standbyPod then
      joinPodLoads standbyPod memoryMap rest
    else
      match memoryMap.lookup podName with
      | none => joinPodLoads standbyPod memoryMap rest
      | some memoryUsage =>
        ⟨podName, cpuUsage, memoryUsage⟩ :: joinPodLoads standbyPod memoryMap rest

/-- queryPodMetrics: run both queries and join by pod name, excluding the
standby pod. -/
def queryPodMetrics (c : RedisCluster) (env : Env) :
    Except String (List PodLoad) :=
  match queryCPUMetrics env.cpuVec with
  | Except.error e => Except.error e
  | Except.ok cpuMap =>
    match queryMemoryMetrics env.memVec with
    | Except.error e => Except.error e
    | Except.ok memoryMap =>
      Except.ok (joinPodLoads c.Status.StandbyPod memoryMap cpuMap)

/-- triggerScaleUp: mark the cluster as resharding with the triggering
pod as the overload witness and persist the status. -/
def triggerScaleUp (c : RedisCluster) (triggerPod : PodLoad) : TickOut :=
  let st := { c.Status with
    IsResharding := true
    OverloadedPod := triggerPod.PodName }
  ⟨{ c with Status := st }, [Action.statusUpdate st], requeueAfter 1, none⟩

/-- triggerScaleDown: compute the drain plan; with fewer than two master
loads only requeue, otherwise mark the cluster as draining with the plan
as witnesses and persist the status. -/
def triggerScaleDown (c : RedisCluster) (podLoads : List PodLoad) : TickOut :=
  match triggerScaleDownPlan c podLoads with
  | none => ⟨c, [], requeueAfter 10, none⟩
  | some plan =>
    let st := { c.Status with
      IsDraining := true
      PodToDrain := plan.PodToDrain
      DrainDestPod1 := plan.DrainDestPod1
      DrainDestPod2 := plan.DrainDestPod2 }
    ⟨{ c with Status := st }, [Action.statusUpdate st], requeueAfter 1, none⟩

/-- monitorMetrics: health gate, reshard-job-running gate, metric query
(a query error is returned to the caller together with a requeue delay),
empty-sample skip, then the scale-up and scale-down decisions. -/
def monitorMetrics (c : RedisCluster) (env : Env) : TickOut :=
  let requeueInterval := c.Spec.MetricsQueryInterval
  if ¬ env.healthy then
    ⟨c, [], requeueAfter env.healthRequeueSeconds, none⟩
  else if env.reshardJobRunning then
    ⟨c, [], requeueAfter requeueInterval, none⟩
  else
    match queryPodMetrics c env with
    | Except.error e => ⟨c, [], requeueAfter requeueInterval, some e⟩
    | Except.ok podLoads =>
      if podLoads = [] then
        ⟨c, [], requeueAfter requeueInterval, none⟩
      else
        let up := checkScaleUpCondition c.Spec podLoads
        if up.1 then
          triggerScaleUp c up.2.1
        else if (checkScaleDownCondition c.Spec podLoads).1 then
          triggerScaleDown c podLoads
        else
          ⟨c, [], requeueAfter requeueInterval, none⟩

/-! ### State dispatch (handleAutoScaling in autoscaler.go) -/

/-- The four branches of the handleAutoScaling state machine. -/
inductive ScalingBranch where
  | draining
  | resharding
  | provisioningStandby
  | monitoring
  deriving Repr, DecidableEq

/-- Which branch handleAutoScaling dispatches to, from the status flags
(IsDraining checked first, then IsResharding, then
IsProvisioningStandby, else monitoring). -/
def dispatchBranch (st : RedisClusterStatus) : ScalingBranch :=
  if st.IsDraining then ScalingBranch.draining
  else if st.IsResharding then ScalingBranch.resharding
  else if st.IsProvisioningStandby then ScalingBranch.provisioningStandby
  else ScalingBranch.monitoring

/-- handleAutoScaling: dispatch the tick on the status flags. -/
def handleAutoScaling (c : RedisCluster) (env : Env) : TickOut :=
  if c.Status.IsDraining then checkDrainStatus c env
  else if c.Status.IsResharding then checkReshardingStatus c env
  else if c.Status.IsProvisioningStandby then checkProvisioningStatus c env
  else monitorMetrics c env

/-! ### Spec validation and defaulting (the API types file) -/

/-- Which check of ValidateSpec failed (each constructor stands for the
corresponding error message). -/
inductive ValidationError where
  | cpuThresholdNotAboveLow
  | memoryThresholdNotAboveLow
  | mastersBelowMinMasters
  | podSelectorRequired
  | serviceNameRequired
  deriving Repr, DecidableEq

/-- ValidateSpec: thresholds must be strictly ordered, Masters must be at
least MinMasters, and existing-cluster mode requires a pod selector and a
service name.  Checks run in source order with early return. -/
def validateSpec (c : RedisCluster) : Option ValidationError :=
  if c.Spec.CpuThreshold ≤ c.Spec.CpuThresholdLow then
    some ValidationError.cpuThresholdNotAboveLow
  else if c.Spec.MemoryThreshold ≤ c.Spec.MemoryThresholdLow then
    some ValidationError.memoryThresholdNotAboveLow
  else if c.Spec.Masters < c.Spec.MinMasters then
    some ValidationError.mastersBelowMinMasters
  else if c.Spec.ExistingCluster then
    if c.Spec.PodSelector.length = 0 then
      some ValidationError.podSelectorRequired
    else if c.Spec.ServiceName = "" then
      some ValidationError.serviceNameRequired
    else
      none
  else
    none

/-- SetDefaults: fill zero-valued optional fields with their defaults;
the service name defaults to `<name>-headless` and the StatefulSet name
to the cluster name. -/
def setDefaults (c : RedisCluster) : RedisCluster :=
  let s := c.Spec
  let s := if s.RedisVersion = "" then { s with RedisVersion := "7.2" } else s
  let s := if s.MinMasters = 0 then { s with MinMasters := 3 } else s
  let s := if s.MemoryThreshold = 0 then { s with MemoryThreshold := 70 } else s
  let s := if s.MemoryThresholdLow = 0 then { s with MemoryThresholdLow := 30 } else s
  let s := if s.CpuThresholdLow = 0 then { s with CpuThresholdLow := 20 } else s
  let s := if s.ReshardTimeoutSeconds = 0 then { s with ReshardTimeoutSeconds := 600 } else s
  let s := if s.ScaleCooldownSeconds = 0 then { s with ScaleCooldownSeconds := 60 } else s
  let s := if s.PrometheusURL = "" then
      { s with PrometheusURL := "http://prometheus-operated.monitoring.svc:9090" }
    else s
  let s := if s.MetricsQueryInterval = 0 then { s with MetricsQueryInterval := 15 } else s
  let s := if s.ReplicasPerMaster = 0 then { s with ReplicasPerMaster := 1 } else s
  let s := if s.ServiceName = "" then { s with ServiceName := c.Name ++ "-headless" } else s
  let s := if s.StatefulSetName = "" then { s with StatefulSetName := c.Name } else s
  { c with Spec := s }

/-- The head of Reconcile: apply defaults, validate, and on a validation
error return it with an empty write trace (no reconciliation work);
otherwise reconciliation proceeds, recorded here as the StatefulSet
reconciliation action standing for the infrastructure work. -/
def reconcileHead (c : RedisCluster) :
    RedisCluster × List Action × Option ValidationError :=
  match validateSpec (setDefaults c) with
  | some e => (setDefaults c, [], some e)
  | none => (setDefaults c, [Action.reconcileSts], none)

/-! ### Theorems: decision engine -/

/-- The counting loop of checkScaleDownCondition counts exactly the pods
passing the underutilization test. -/
theorem countUnderutilized_eq_countP (spec : RedisClusterSpec) :
    ∀ podLoads : List PodLoad,
      countUnderutilized spec podLoads =
        (podLoads.countP (podUnderutilized spec) : Int) := by
  intro podLoads
  induction podLoads with
  | nil => simp [countUnderutilized]
  | cons pod rest ih =>
    by_cases hu : podUnderutilized spec pod = true
    · simp [countUnderutilized, hu, List.countP_cons, ih]
    · simp [countUnderutilized, hu, List.countP_cons, ih]

/-- The underutilization test, written as the decided conjunction of the
two strict threshold inequalities. -/
theorem countP_underutilized_decide (spec : RedisClusterSpec)
    (podLoads : List PodLoad) :
    (podLoads.countP fun p =>
        decide (p.CPUUsage < (spec.CpuThresholdLow : ℚ) ∧
          p.MemoryUsage < (spec.MemoryThresholdLow : ℚ))) =
      podLoads.countP (podUnderutilized spec) := by
  congr 1
  funext p
  simp [podUnderutilized]

/-- C1: checkScaleDownCondition returns a shrink verdict if and only if
Masters is strictly above MinMasters and at least two sampled pods are
simultaneously strictly below both low thresholds; in particular no
shrink verdict is produced at Masters = MinMasters, nor with a single
underutilized pod. -/
theorem claim1_scale_down_iff (spec : RedisClusterSpec) (podLoads : List PodLoad)
    (hne : podLoads ≠ []) :
    (checkScaleDownCondition spec podLoads).1 = true ↔
      (spec.MinMasters < spec.Masters ∧
        2 ≤ podLoads.countP fun p =>
          decide (p.CPUUsage < (spec.CpuThresholdLow : ℚ) ∧
            p.MemoryUsage < (spec.MemoryThresholdLow : ℚ))) := by
  rw [countP_underutilized_decide]
  unfold checkScaleDownCondition
  have hcount := countUnderutilized_eq_countP spec podLoads
  by_cases hm : spec.Masters ≤ spec.MinMasters
  · simp [hm, not_lt.mpr hm]
  · have hm' : spec.MinMasters < spec.Masters := lt_of_not_le hm
    by_cases hc : (2 : Int) ≤ countUnderutilized spec podLoads
    · have hcN : 2 ≤ podLoads.countP (podUnderutilized spec) := by
        rw [hcount] at hc
        exact_mod_cast hc
      simp [hm, hc, hm', hcN]
    · have hcN : ¬ 2 ≤ podLoads.countP (podUnderutilized spec) := by
        intro hle
        apply hc
        rw [hcount]
        exact_mod_cast hle
      simp [hm, hc, hcN]

/-- Sample loads used to instantiate the scale-down theorem: two idle
pods and one busy pod. -/
def c1loads : List PodLoad :=
  [⟨"redis-0", 10, 10⟩, ⟨"redis-2", 5, 5⟩, ⟨"redis-4", 90, 90⟩]

/-- Sample spec with defaulted thresholds, four active masters and
minimum three. -/
def c1spec : RedisClusterSpec :=
  { Masters := 4
    MinMasters := 3
    ReplicasPerMaster := 1
    RedisVersion := "7.2"
    AutoScaleEnabled := true
    CpuThreshold := 70
    CpuThresholdLow := 20
    MemoryThreshold := 70
    MemoryThresholdLow := 30
    ReshardTimeoutSeconds := 600
    ScaleCooldownSeconds := 60
    PrometheusURL := ""
    MetricsQueryInterval := 15
    ExistingCluster := false
    PodSelector := []
    ServiceName := "svc"
    ManageStatefulSet := true
    StatefulSetName := "redis" }

/-- Witness for C1 at a concrete spec and load list. -/
theorem claim1_witness :
    c1loads ≠ [] ∧
      ((checkScaleDownCondition c1spec c1loads).1 = true ↔
        (c1spec.MinMasters < c1spec.Masters ∧
          2 ≤ c1loads.countP fun p =>
            decide (p.CPUUsage < (c1spec.CpuThresholdLow : ℚ) ∧
              p.MemoryUsage < (c1spec.MemoryThresholdLow : ℚ)))) :=
  ⟨by decide, claim1_scale_down_iff c1spec c1loads (by decide)⟩

/-- The triggered flag computed by the scale-up loop is the disjunction
over the list of the per-pod threshold test. -/
theorem scaleUpScan_fst (spec : RedisClusterSpec) :
    ∀ (l : List PodLoad) (b : Bool) (t : PodLoad),
      (scaleUpScan spec l b t).1 = (b || l.any (podExceeds spec)) := by
  intro l
  induction l with
  | nil => intro b t; simp [scaleUpScan]
  | cons pod rest ih =>
    intro b t
    by_cases hpe : podExceeds spec pod = true
    · simp [scaleUpScan, hpe, ih]
    · simp only [Bool.not_eq_true] at hpe
      simp [scaleUpScan, hpe, ih]

/-- The pod carried out of the scale-up loop is the initial accumulator
or an exceeding member of the list. -/
theorem scaleUpScan_snd_cases (spec : RedisClusterSpec) :
    ∀ (l : List PodLoad) (b : Bool) (t : PodLoad),
      (scaleUpScan spec l b t).2 = t ∨
        ((scaleUpScan spec l b t).2 ∈ l ∧
          podExceeds spec (scaleUpScan spec l b t).2 = true) := by
  intro l
  induction l with
  | nil => intro b t; left; simp [scaleUpScan]
  | cons pod rest ih =>
    intro b t
    by_cases hpe : podExceeds spec pod = true
    · simp only [scaleUpScan, hpe, if_true]
      by_cases hrep : t.PodName = "" ∨ t.MemoryUsage < pod.MemoryUsage
      · rw [if_pos hrep]
        rcases ih true pod with h | ⟨hmem, hex⟩
        · right
          exact ⟨by rw [h]; exact List.mem_cons_self pod rest, by rw [h]; exact hpe⟩
        · right
          exact ⟨List.mem_cons_of_mem pod hmem, hex⟩
      · rw [if_neg hrep]
        rcases ih true t with h | ⟨hmem, hex⟩
        · left; exact h
        · right; exact ⟨List.mem_cons_of_mem pod hmem, hex⟩
    · simp only [Bool.not_eq_true] at hpe
      simp only [scaleUpScan, hpe, Bool.false_eq_true, if_false]
      rcases ih b t with h | ⟨hmem, hex⟩
      · left; exact h
      · right; exact ⟨List.mem_cons_of_mem pod hmem, hex⟩

/-- Once the accumulator holds a pod with a non-empty name, and every
exceeding pod in the remaining list also has a non-empty name, the loop
result dominates the accumulator and every exceeding list member in
memory usage. -/
theorem scaleUpScan_max (spec : RedisClusterSpec) :
    ∀ (l : List PodLoad) (b : Bool) (t : PodLoad),
      (∀ p ∈ l, podExceeds spec p = true → p.PodName ≠ "") →
      t.PodName ≠ "" →
      t.MemoryUsage ≤ (scaleUpScan spec l b t).2.MemoryUsage ∧
        (scaleUpScan spec l b t).2.PodName ≠ "" ∧
        ∀ p ∈ l, podExceeds spec p = true →
          p.MemoryUsage ≤ (scaleUpScan spec l b t).2.MemoryUsage := by
  intro l
  induction l with
  | nil =>
    intro b t _ ht
    refine ⟨le_refl _, ?_, ?_⟩
    · simpa [scaleUpScan] using ht
    · intro p hp
      cases hp
  | cons pod rest ih =>
    intro b t hnames ht
    have hnames' : ∀ p ∈ rest, podExceeds spec p = true → p.PodName ≠ "" :=
      fun p hp => hnames p (List.mem_cons_of_mem pod hp)
    by_cases hpe : podExceeds spec pod = true
    · have hpodname : pod.PodName ≠ "" := hnames pod (List.mem_cons_self pod rest) hpe
      simp only [scaleUpScan, hpe, if_true]
      by_cases hlt : t.MemoryUsage < pod.MemoryUsage
      · rw [if_pos (Or.inr hlt)]
        obtain ⟨h1, h2, h3⟩ := ih true pod hnames' hpodname
        refine ⟨le_trans (le_of_lt hlt) h1, h2, ?_⟩
        intro p hp hpex
        rcases List.mem_cons.mp hp with rfl | hp'
        · exact h1
        · exact h3 p hp' hpex
      · have hcond : ¬ (t.PodName = "" ∨ t.MemoryUsage < pod.MemoryUsage) := by
          intro hor
          rcases hor with h | h
          · exact ht h
          · exact hlt h
        rw [if_neg hcond]
        obtain ⟨h1, h2, h3⟩ := ih true t hnames' ht
        refine ⟨h1, h2, ?_⟩
        intro p hp hpex
        rcases List.mem_cons.mp hp with rfl | hp'
        · exact le_trans (le_of_not_lt hlt) h1
        · exact h3 p hp' hpex
    · simp only [Bool.not_eq_true] at hpe
      simp only [scaleUpScan, hpe, Bool.false_eq_true, if_false]
      obtain ⟨h1, h2, h3⟩ := ih b t hnames' ht
      refine ⟨h1, h2, ?_⟩
      intro p hp hpex
      rcases List.mem_cons.mp hp with rfl | hp'
      · rw [hpex] at hpe
        cases hpe
      · exact h3 p hp' hpex

/-- Run from the zero-value accumulator, as checkScaleUpCondition does:
when every exceeding pod has a non-empty name and the loop reports
triggered, the result pod is an exceeding member with maximal memory
among exceeding members. -/
theorem scaleUpScan_start (spec : RedisClusterSpec) :
    ∀ l : List PodLoad,
      (∀ p ∈ l, podExceeds spec p = true → p.PodName ≠ "") →
      (scaleUpScan spec l false default).1 = true →
      (scaleUpScan spec l false default).2 ∈ l ∧
        podExceeds spec (scaleUpScan spec l false default).2 = true ∧
        ∀ p ∈ l, podExceeds spec p = true →
          p.MemoryUsage ≤ (scaleUpScan spec l false default).2.MemoryUsage := by
  intro l
  induction l with
  | nil =>
    intro _ htrig
    simp [scaleUpScan] at htrig
  | cons pod rest ih =>
    intro hnames htrig
    have hnames' : ∀ p ∈ rest, podExceeds spec p = true → p.PodName ≠ "" :=
      fun p hp => hnames p (List.mem_cons_of_mem pod hp)
    by_cases hpe : podExceeds spec pod = true
    · have hpodname : pod.PodName ≠ "" := hnames pod (List.mem_cons_self pod rest) hpe
      have hdef : (default : PodLoad).PodName = "" := rfl
      have hstep : scaleUpScan spec (pod :: rest) false default =
          scaleUpScan spec rest true pod := by
        simp [scaleUpScan, hpe, hdef]
      rw [hstep] at htrig ⊢
      obtain ⟨h1, h2, h3⟩ := scaleUpScan_max spec rest true pod hnames' hpodname
      have hcases := scaleUpScan_snd_cases spec rest true pod
      have hmem : (scaleUpScan spec rest true pod).2 ∈ pod :: rest ∧
          podExceeds spec (scaleUpScan spec rest true pod).2 = true := by
        rcases hcases with h | ⟨hm, hx⟩
        · exact ⟨by rw [h]; exact List.mem_cons_self pod rest, by rw [h]; exact hpe⟩
        · exact ⟨List.mem_cons_of_mem pod hm, hx⟩
      refine ⟨hmem.1, hmem.2, ?_⟩
      intro p hp hpex
      rcases List.mem_cons.mp hp with rfl | hp'
      · exact h1
      · exact h3 p hp' hpex
    · simp only [Bool.not_eq_true] at hpe
      have hstep : scaleUpScan spec (pod :: rest) false default =
          scaleUpScan spec rest false default := by
        simp [scaleUpScan, hpe]
      rw [hstep] at htrig ⊢
      obtain ⟨h1, h2, h3⟩ := ih hnames' htrig
      refine ⟨List.mem_cons_of_mem pod h1, h2, ?_⟩
      intro p hp hpex
      rcases List.mem_cons.mp hp with rfl | hp'
      · rw [hpex] at hpe
        cases hpe
      · exact h3 p hp' hpex

/-- Sample load list in which an overloaded pod carries an empty pod
name, the zero value that checkScaleUpCondition uses as its unset
sentinel (a Prometheus sample without a pod label yields exactly this). -/
def c2loads : List PodLoad := [⟨"", 100, 50⟩, ⟨"redis-2", 100, 10⟩]

/-- C2 counterexample: with an empty-named overloaded pod in the sample
list, checkScaleUpCondition triggers but returns a pod whose memory
usage is strictly below that of another pod exceeding a threshold, so
the returned pod is not the highest-memory exceeder. -/
theorem claim2_counterexample :
    (checkScaleUpCondition c1spec c2loads).1 = true ∧
      (⟨"", 100, 50⟩ : PodLoad) ∈ c2loads ∧
      podExceeds c1spec ⟨"", 100, 50⟩ = true ∧
      (checkScaleUpCondition c1spec c2loads).2.1 = ⟨"redis-2", 100, 10⟩ ∧
      (checkScaleUpCondition c1spec c2loads).2.1.MemoryUsage <
        (⟨"", 100, 50⟩ : PodLoad).MemoryUsage := by
  refine ⟨?_, ?_, ?_, ?_, ?_⟩ <;> decide

/-- C2 (amended): checkScaleUpCondition triggers exactly when some pod
exceeds a threshold and, provided every exceeding pod has a non-empty
name, the returned triggering pod is an exceeding pod of maximal memory
usage among the exceeding pods. -/
theorem claim2_scale_up_amended (spec : RedisClusterSpec)
    (podLoads : List PodLoad)
    (h : ∀ p ∈ podLoads, podExceeds spec p = true → p.PodName ≠ "") :
    ((checkScaleUpCondition spec podLoads).1 = true ↔
      ∃ p ∈ podLoads, podExceeds spec p = true) ∧
    ((checkScaleUpCondition spec podLoads).1 = true →
      (checkScaleUpCondition spec podLoads).2.1 ∈ podLoads ∧
        podExceeds spec (checkScaleUpCondition spec podLoads).2.1 = true ∧
        ∀ p ∈ podLoads, podExceeds spec p = true →
          p.MemoryUsage ≤ (checkScaleUpCondition spec podLoads).2.1.MemoryUsage) := by
  have hfst : (checkScaleUpCondition spec podLoads).1 =
      (scaleUpScan spec podLoads false default).1 := by
    unfold checkScaleUpCondition
    by_cases hs : (scaleUpScan spec podLoads false default).1 = true
    · simp [hs]
    · simp only [Bool.not_eq_true] at hs
      simp [hs]
  have hany := scaleUpScan_fst spec podLoads false default
  constructor
  · rw [hfst, hany]
    simp [List.any_eq_true]
  · intro htrig
    rw [hfst] at htrig
    have hsnd : (checkScaleUpCondition spec podLoads).2.1 =
        (scaleUpScan spec podLoads false default).2 := by
      unfold checkScaleUpCondition
      simp [htrig]
    rw [hsnd]
    exact scaleUpScan_start spec podLoads h htrig

/-- Sample load list with non-empty pod names for the C2 witness. -/
def c2wloads : List PodLoad := [⟨"redis-0", 100, 50⟩, ⟨"redis-2", 10, 10⟩]

/-- Witness for the amended C2 theorem at a concrete spec and load
list. -/
theorem claim2_witness :
    (∀ p ∈ c2wloads, podExceeds c1spec p = true → p.PodName ≠ "") ∧
      (((checkScaleUpCondition c1spec c2wloads).1 = true ↔
        ∃ p ∈ c2wloads, podExceeds c1spec p = true) ∧
      ((checkScaleUpCondition c1spec c2wloads).1 = true →
        (checkScaleUpCondition c1spec c2wloads).2.1 ∈ c2wloads ∧
          podExceeds c1spec (checkScaleUpCondition c1spec c2wloads).2.1 = true ∧
          ∀ p ∈ c2wloads, podExceeds c1spec p = true →
            p.MemoryUsage ≤
              (checkScaleUpCondition c1spec c2wloads).2.1.MemoryUsage)) :=
  ⟨by decide, claim2_scale_up_amended c1spec c2wloads (by decide)⟩

/-! ### Theorems: scale-down targeting -/

/-- C3: every drain plan produced by triggerScaleDown drains the pod at
ordinal (Masters - 1) * (1 + ReplicasPerMaster); its destinations are
the two lowest-memory loads among the master-ordinal pods, and when the
victim is one of those two by name, the single other low-memory pod is
the only destination and DrainDestPod2 stays empty; moreover a drain
tick whose victim equals the tracked standby pod creates no job and
clears the draining flag before any job exists. -/
theorem claim3_scale_down_targets (c : RedisCluster) (podLoads : List PodLoad)
    (plan : DrainPlan)
    (hplan : triggerScaleDownPlan c podLoads = some plan) :
    plan.PodToDrain =
      podNameOf c.Name ((c.Spec.Masters - 1) * (1 + c.Spec.ReplicasPerMaster)) ∧
    (∃ p0 p1 rest,
      List.Perm (masterLoadsOf c.Name c.Spec.ReplicasPerMaster podLoads) (p0 :: p1 :: rest) ∧
      p0.MemoryUsage ≤ p1.MemoryUsage ∧
      (∀ p ∈ rest, p0.MemoryUsage ≤ p.MemoryUsage ∧ p1.MemoryUsage ≤ p.MemoryUsage) ∧
      ((plan.PodToDrain ≠ p0.PodName ∧ plan.PodToDrain ≠ p1.PodName) →
        plan.DrainDestPod1 = p0.PodName ∧ plan.DrainDestPod2 = p1.PodName) ∧
      (plan.PodToDrain = p0.PodName →
        plan.DrainDestPod1 = p1.PodName ∧ plan.DrainDestPod2 = "") ∧
      (plan.PodToDrain ≠ p0.PodName → plan.PodToDrain = p1.PodName →
        plan.DrainDestPod1 = p0.PodName ∧ plan.DrainDestPod2 = "")) ∧
    (∀ (c2 : RedisCluster) (env : Env), env.drainJob = none →
      c2.Status.PodToDrain = c2.Status.StandbyPod →
      (∀ a ∈ (checkDrainStatus c2 env).actions, a.isCreateJob = false) ∧
      (checkDrainStatus c2 env).cluster.Status.IsDraining = false) := by
  have habort : ∀ (c2 : RedisCluster) (env : Env), env.drainJob = none →
      c2.Status.PodToDrain = c2.Status.StandbyPod →
      (∀ a ∈ (checkDrainStatus c2 env).actions, a.isCreateJob = false) ∧
      (checkDrainStatus c2 env).cluster.Status.IsDraining = false := by
    intro c2 env hjob hstandby
    unfold checkDrainStatus
    rw [hjob]
    by_cases hinfo : c2.Status.PodToDrain = "" ∨ c2.Status.DrainDestPod1 = ""
    · simp [hinfo, clearDrainStatus, Action.isCreateJob]
    · simp [hinfo, hstandby, clearDrainStatus, Action.isCreateJob]
  simp only [triggerScaleDownPlan] at hplan
  by_cases hlen :
      (masterLoadsOf c.Name c.Spec.ReplicasPerMaster podLoads).length < 2
  · rw [if_pos hlen] at hplan
    cases hplan
  · rw [if_neg hlen] at hplan
    have hsorted := List.sorted_insertionSort memLE
      (masterLoadsOf c.Name c.Spec.ReplicasPerMaster podLoads)
    have hperm := List.perm_insertionSort memLE
      (masterLoadsOf c.Name c.Spec.ReplicasPerMaster podLoads)
    have hlength := List.length_insertionSort memLE
      (masterLoadsOf c.Name c.Spec.ReplicasPerMaster podLoads)
    rcases hsort : List.insertionSort memLE
        (masterLoadsOf c.Name c.Spec.ReplicasPerMaster podLoads) with
      _ | ⟨p0, tl⟩
    · rw [hsort] at hlength
      simp at hlength
      omega
    · rcases htl : tl with _ | ⟨p1, rest⟩
      · rw [htl] at hsort
        rw [hsort] at hlength
        simp at hlength
        omega
      · rw [htl] at hsort
        rw [hsort] at hplan hperm hsorted
        have h01 : p0.MemoryUsage ≤ p1.MemoryUsage :=
          List.rel_of_sorted_cons hsorted p1 (List.mem_cons_self p1 rest)
        have hmins : ∀ p ∈ rest,
            p0.MemoryUsage ≤ p.MemoryUsage ∧ p1.MemoryUsage ≤ p.MemoryUsage := by
          intro p hp
          exact ⟨List.rel_of_sorted_cons hsorted p (List.mem_cons_of_mem p1 hp),
            List.rel_of_sorted_cons (List.Sorted.of_cons hsorted) p hp⟩
        replace hplan :
            (if highestActiveMasterName c ≠ p0.PodName ∧
                highestActiveMasterName c ≠ p1.PodName then
              some (⟨highestActiveMasterName c, p0.PodName, p1.PodName⟩ : DrainPlan)
            else if highestActiveMasterName c = p0.PodName then
              some (⟨highestActiveMasterName c, p1.PodName, ""⟩ : DrainPlan)
            else
              some (⟨highestActiveMasterName c, p0.PodName, ""⟩ : DrainPlan)) =
              some plan := hplan
        by_cases hne : highestActiveMasterName c ≠ p0.PodName ∧
            highestActiveMasterName c ≠ p1.PodName
        · rw [if_pos hne] at hplan
          have hplan' := Option.some.inj hplan
          subst hplan'
          refine ⟨rfl, ⟨p0, p1, rest, hperm.symm, h01, hmins, ?_, ?_, ?_⟩, habort⟩
          · intro _
            exact ⟨rfl, rfl⟩
          · intro hv
            exact absurd hv hne.1
          · intro _ hv
            exact absurd hv hne.2
        · rw [if_neg hne] at hplan
          by_cases hv0 : highestActiveMasterName c = p0.PodName
          · rw [if_pos hv0] at hplan
            have hplan' := Option.some.inj hplan
            subst hplan'
            refine ⟨rfl, ⟨p0, p1, rest, hperm.symm, h01, hmins, ?_, ?_, ?_⟩, habort⟩
            · intro hcon
              exact absurd hv0 hcon.1
            · intro _
              exact ⟨rfl, rfl⟩
            · intro hcon _
              exact absurd hv0 hcon
          · rw [if_neg hv0] at hplan
            have hv1 : highestActiveMasterName c = p1.PodName := by
              by_contra hv1
              exact hne ⟨hv0, hv1⟩
            have hplan' := Option.some.inj hplan
            subst hplan'
            refine ⟨rfl, ⟨p0, p1, rest, hperm.symm, h01, hmins, ?_, ?_, ?_⟩, habort⟩
            · intro hcon
              exact absurd hv1 hcon.2
            · intro hcon
              exact absurd hcon hv0
            · intro _ _
              exact ⟨rfl, rfl⟩

/-- Stable status for concrete instantiations: no protocol in flight,
standby tracked at ordinal 8. -/
def stableStatus : RedisClusterStatus :=
  { CurrentMasters := 4
    CurrentReplicas := 4
    Initialized := true
    IsResharding := false
    IsProvisioningStandby := false
    IsDraining := false
    LastScaleTime := none
    StandbyPod := "redis-8"
    OverloadedPod := ""
    PodToDrain := ""
    DrainDestPod1 := ""
    DrainDestPod2 := "" }

/-- Concrete cluster used to instantiate the targeting theorem. -/
def c3cluster : RedisCluster :=
  { Name := "redis", Namespace := "default", Spec := c1spec, Status := stableStatus }

/-- Concrete load list for the targeting witness: masters at ordinals 0,
2, 4 and 6 with memory 10, 5, 50 and 80. -/
def c3loads : List PodLoad :=
  [⟨"redis-0", 10, 10⟩, ⟨"redis-2", 5, 5⟩, ⟨"redis-4", 50, 50⟩, ⟨"redis-6", 80, 80⟩]

/-- The drain plan the code computes on `c3loads`: drain ordinal 6 into
the two lowest-memory masters. -/
def c3plan : DrainPlan := ⟨"redis-6", "redis-2", "redis-0"⟩

/-- Witness for C3 at a concrete cluster and load list. -/
theorem claim3_witness :
    triggerScaleDownPlan c3cluster c3loads = some c3plan ∧
      (c3plan.PodToDrain =
        podNameOf c3cluster.Name
          ((c3cluster.Spec.Masters - 1) * (1 + c3cluster.Spec.ReplicasPerMaster)) ∧
      (∃ p0 p1 rest,
        List.Perm (masterLoadsOf c3cluster.Name c3cluster.Spec.ReplicasPerMaster c3loads)
          (p0 :: p1 :: rest) ∧
        p0.MemoryUsage ≤ p1.MemoryUsage ∧
        (∀ p ∈ rest, p0.MemoryUsage ≤ p.MemoryUsage ∧ p1.MemoryUsage ≤ p.MemoryUsage) ∧
        ((c3plan.PodToDrain ≠ p0.PodName ∧ c3plan.PodToDrain ≠ p1.PodName) →
          c3plan.DrainDestPod1 = p0.PodName ∧ c3plan.DrainDestPod2 = p1.PodName) ∧
        (c3plan.PodToDrain = p0.PodName →
          c3plan.DrainDestPod1 = p1.PodName ∧ c3plan.DrainDestPod2 = "") ∧
        (c3plan.PodToDrain ≠ p0.PodName → c3plan.PodToDrain = p1.PodName →
          c3plan.DrainDestPod1 = p0.PodName ∧ c3plan.DrainDestPod2 = "")) ∧
      (∀ (c2 : RedisCluster) (env : Env), env.drainJob = none →
        c2.Status.PodToDrain = c2.Status.StandbyPod →
        (∀ a ∈ (checkDrainStatus c2 env).actions, a.isCreateJob = false) ∧
        (checkDrainStatus c2 env).cluster.Status.IsDraining = false)) :=
  ⟨by decide, claim3_scale_down_targets c3cluster c3loads c3plan (by decide)⟩

/-! ### Theorems: protocol completion -/

/-- C4: on a tick that observes the reshard job as succeeded (all
StatefulSet pods present and ready), the controller persists exactly
Masters plus one, the resharding flag cleared, the provisioning-standby
flag set, OverloadedPod cleared and LastScaleTime set to the current
time, and the spec update precedes the status update in the write
trace. -/
theorem claim4_reshard_success_persists (c : RedisCluster) (env : Env)
    (j : JobStatus)
    (hsts : env.stsSpecReplicas = (c.Spec.Masters + 1) * (1 + c.Spec.ReplicasPerMaster))
    (hready : env.stsReadyReplicas = (c.Spec.Masters + 1) * (1 + c.Spec.ReplicasPerMaster))
    (hjob : env.reshardJob = some j)
    (hsucc : 0 < j.Succeeded) :
    (checkReshardingStatus c env).cluster.Spec =
        { c.Spec with Masters := c.Spec.Masters + 1 } ∧
      (checkReshardingStatus c env).cluster.Status =
        { c.Status with
          IsResharding := false
          IsProvisioningStandby := true
          OverloadedPod := ""
          LastScaleTime := some env.now } ∧
      (checkReshardingStatus c env).actions =
        [Action.specUpdate { c.Spec with Masters := c.Spec.Masters + 1 },
          Action.reconcileSts,
          Action.statusUpdate { c.Status with
            IsResharding := false
            IsProvisioningStandby := true
            OverloadedPod := ""
            LastScaleTime := some env.now },
          Action.deleteJob (c.Name ++ "-reshard")] ∧
      (checkReshardingStatus c env).error = none := by
  simp [checkReshardingStatus, hsts, hready, hjob, hsucc]

/-- Cluster mid-scale-up for the C4 witness: resharding with the
overload witness recorded. -/
def c4cluster : RedisCluster :=
  { Name := "redis", Namespace := "default", Spec := c1spec
    Status := { stableStatus with IsResharding := true, OverloadedPod := "redis-2" } }

/-- Environment common to the concrete tick instantiations: a matching
and ready StatefulSet and no jobs present. -/
def baseEnv : Env :=
  { stsSpecReplicas := 10
    stsReadyReplicas := 10
    reshardJob := none
    drainJob := none
    cleanupJob := none
    joinJob := none
    standbyPodObs := none
    healthy := true
    healthRequeueSeconds := 15
    reshardJobRunning := false
    cpuVec := []
    memVec := []
    now := 200 }

/-- Environment observing a succeeded reshard job. -/
def c4env : Env := { baseEnv with reshardJob := some ⟨1, 0⟩ }

/-- Witness for C4 at a concrete cluster and environment. -/
theorem claim4_witness :
    (c4env.stsSpecReplicas =
        (c4cluster.Spec.Masters + 1) * (1 + c4cluster.Spec.ReplicasPerMaster)) ∧
      c4env.reshardJob = some ⟨1, 0⟩ ∧
      ((checkReshardingStatus c4cluster c4env).cluster.Spec =
          { c4cluster.Spec with Masters := c4cluster.Spec.Masters + 1 } ∧
        (checkReshardingStatus c4cluster c4env).cluster.Status =
          { c4cluster.Status with
            IsResharding := false
            IsProvisioningStandby := true
            OverloadedPod := ""
            LastScaleTime := some c4env.now } ∧
        (checkReshardingStatus c4cluster c4env).actions =
          [Action.specUpdate { c4cluster.Spec with Masters := c4cluster.Spec.Masters + 1 },
            Action.reconcileSts,
            Action.statusUpdate { c4cluster.Status with
              IsResharding := false
              IsProvisioningStandby := true
              OverloadedPod := ""
              LastScaleTime := some c4env.now },
            Action.deleteJob (c4cluster.Name ++ "-reshard")] ∧
        (checkReshardingStatus c4cluster c4env).error = none) :=
  ⟨by decide, rfl,
    claim4_reshard_success_persists c4cluster c4env ⟨1, 0⟩ (by decide) (by decide)
      rfl (by decide)⟩

/-- C5: on a tick that observes both the drain job and the
cleanup-standby job as succeeded, the controller persists exactly
Masters minus one, the drained victim as the new StandbyPod (different
from the previous standby whenever the victim differs from it), the
draining flag and all three drain witness fields cleared, and
LastScaleTime set to the current time. -/
theorem claim5_drain_success_persists (c : RedisCluster) (env : Env)
    (dj cj : JobStatus)
    (hdrain : env.drainJob = some dj) (hdsucc : 0 < dj.Succeeded)
    (hcleanup : env.cleanupJob = some cj) (hcsucc : 0 < cj.Succeeded)
    (hcfail : cj.Failed = 0)
    (hvictim : c.Status.PodToDrain ≠ c.Status.StandbyPod) :
    (checkDrainStatus c env).cluster.Spec =
        { c.Spec with Masters := c.Spec.Masters - 1 } ∧
      (checkDrainStatus c env).cluster.Status =
        { c.Status with
          StandbyPod := c.Status.PodToDrain
          IsDraining := false
          PodToDrain := ""
          DrainDestPod1 := ""
          DrainDestPod2 := ""
          LastScaleTime := some env.now } ∧
      (checkDrainStatus c env).cluster.Status.StandbyPod ≠ c.Status.StandbyPod ∧
      (checkDrainStatus c env).error = none := by
  have hs0 : ¬ (cj.Succeeded = 0 ∧ cj.Failed = 0) := by
    intro hcon
    rw [hcon.1] at hcsucc
    exact lt_irrefl 0 hcsucc
  have hf0 : ¬ (0 < cj.Failed) := by
    rw [hcfail]
    exact lt_irrefl 0
  simp [checkDrainStatus, hdrain, hdsucc, hcleanup, hs0, hf0, hvictim]

/-- Cluster mid-scale-down for the C5 witness: draining ordinal 6 into
ordinals 2 and 0 with the standby at ordinal 8. -/
def c5cluster : RedisCluster :=
  { Name := "redis", Namespace := "default", Spec := c1spec
    Status := { stableStatus with
      IsDraining := true
      PodToDrain := "redis-6"
      DrainDestPod1 := "redis-2"
      DrainDestPod2 := "redis-0" } }

/-- Environment observing both the drain job and the cleanup job as
succeeded. -/
def c5env : Env := { baseEnv with drainJob := some ⟨1, 0⟩, cleanupJob := some ⟨1, 0⟩ }

/-- Witness for C5 at a concrete cluster and environment. -/
theorem claim5_witness :
    c5cluster.Status.PodToDrain ≠ c5cluster.Status.StandbyPod ∧
      ((checkDrainStatus c5cluster c5env).cluster.Spec =
          { c5cluster.Spec with Masters := c5cluster.Spec.Masters - 1 } ∧
        (checkDrainStatus c5cluster c5env).cluster.Status =
          { c5cluster.Status with
            StandbyPod := c5cluster.Status.PodToDrain
            IsDraining := false
            PodToDrain := ""
            DrainDestPod1 := ""
            DrainDestPod2 := ""
            LastScaleTime := some c5env.now } ∧
        (checkDrainStatus c5cluster c5env).cluster.Status.StandbyPod ≠
          c5cluster.Status.StandbyPod ∧
        (checkDrainStatus c5cluster c5env).error = none) :=
  ⟨by decide,
    claim5_drain_success_persists c5cluster c5env ⟨1, 0⟩ ⟨1, 0⟩ rfl (by decide) rfl
      (by decide) (by decide) (by decide)⟩

/-! ### Theorems: protocol failure handling -/

/-- Cluster mid-scale-down with a recorded previous scale time, used to
exhibit the failure-path behaviour. -/
def c6cluster : RedisCluster :=
  { Name := "redis", Namespace := "default", Spec := c1spec
    Status := { stableStatus with
      IsDraining := true
      PodToDrain := "redis-6"
      DrainDestPod1 := "redis-2"
      DrainDestPod2 := "redis-0"
      OverloadedPod := "redis-2"
      LastScaleTime := some 100 } }

/-- Environment observing a failed drain job at time 200. -/
def c6env : Env := { baseEnv with drainJob := some ⟨0, 1⟩ }

/-- Environment observing a failed reshard job at time 200. -/
def c6envR : Env := { baseEnv with reshardJob := some ⟨0, 1⟩ }

/-- C6 counterexample: a tick observing the drain job as failed clears
the draining state but leaves LastScaleTime at its previous value (100)
instead of updating it to the current time (200), so no fresh cooldown
backoff is imposed by the failure. -/
theorem claim6_counterexample :
    (checkDrainStatus c6cluster c6env).cluster.Status.IsDraining = false ∧
      (checkDrainStatus c6cluster c6env).cluster.Status.PodToDrain = "" ∧
      (checkDrainStatus c6cluster c6env).cluster.Status.LastScaleTime = some 100 ∧
      c6env.now = 200 ∧
      (checkDrainStatus c6cluster c6env).cluster.Status.LastScaleTime ≠
        some c6env.now := by
  refine ⟨?_, ?_, ?_, ?_, ?_⟩ <;> decide

/-- C6 (amended): on a protocol step failure the controller clears the
witness fields and returns the status to the stable monitoring shape
with a short requeue, but it does NOT update LastScaleTime, so the
cooldown gate imposes no backoff beyond the latency of recreating the
job. -/
theorem claim6_failure_no_backoff (c : RedisCluster) (envR envD : Env)
    (jR jD : JobStatus)
    (hRs : jR.Succeeded = 0) (hRf : 0 < jR.Failed)
    (hDs : jD.Succeeded = 0) (hDf : 0 < jD.Failed)
    (hsts : envR.stsSpecReplicas = (c.Spec.Masters + 1) * (1 + c.Spec.ReplicasPerMaster))
    (hready : envR.stsReadyReplicas = (c.Spec.Masters + 1) * (1 + c.Spec.ReplicasPerMaster))
    (hRjob : envR.reshardJob = some jR)
    (hDjob : envD.drainJob = some jD) :
    ((checkReshardingStatus c envR).cluster.Status =
        { c.Status with IsResharding := false, OverloadedPod := "" } ∧
      (checkReshardingStatus c envR).cluster.Status.LastScaleTime =
        c.Status.LastScaleTime ∧
      (checkReshardingStatus c envR).result = requeueAfter 1 ∧
      (checkReshardingStatus c envR).error = none) ∧
    ((checkDrainStatus c envD).cluster.Status = clearDrainStatus c.Status ∧
      (checkDrainStatus c envD).cluster.Status.LastScaleTime =
        c.Status.LastScaleTime ∧
      (checkDrainStatus c envD).result = requeueAfter 1 ∧
      (checkDrainStatus c envD).error = none) := by
  have hRs' : ¬ (0 < jR.Succeeded) := by
    rw [hRs]
    exact lt_irrefl 0
  have hDs' : ¬ (0 < jD.Succeeded) := by
    rw [hDs]
    exact lt_irrefl 0
  constructor
  · simp [checkReshardingStatus, hsts, hready, hRjob, hRs', hRf]
  · simp [checkDrainStatus, hDjob, hDs', hDf, clearDrainStatus]

/-- Witness for the amended C6 theorem at a concrete cluster and failed
jobs. -/
theorem claim6_witness :
    ((⟨0, 1⟩ : JobStatus).Succeeded = 0 ∧ 0 < (⟨0, 1⟩ : JobStatus).Failed ∧
      c6envR.reshardJob = some ⟨0, 1⟩ ∧ c6env.drainJob = some ⟨0, 1⟩) ∧
      (((checkReshardingStatus c6cluster c6envR).cluster.Status =
          { c6cluster.Status with IsResharding := false, OverloadedPod := "" } ∧
        (checkReshardingStatus c6cluster c6envR).cluster.Status.LastScaleTime =
          c6cluster.Status.LastScaleTime ∧
        (checkReshardingStatus c6cluster c6envR).result = requeueAfter 1 ∧
        (checkReshardingStatus c6cluster c6envR).error = none) ∧
      ((checkDrainStatus c6cluster c6env).cluster.Status =
          clearDrainStatus c6cluster.Status ∧
        (checkDrainStatus c6cluster c6env).cluster.Status.LastScaleTime =
          c6cluster.Status.LastScaleTime ∧
        (checkDrainStatus c6cluster c6env).result = requeueAfter 1 ∧
        (checkDrainStatus c6cluster c6env).error = none)) :=
  ⟨⟨rfl, by decide, rfl, rfl⟩,
    claim6_failure_no_backoff c6cluster c6envR c6env ⟨0, 1⟩ ⟨0, 1⟩ rfl (by decide)
      rfl (by decide) (by decide) (by decide) rfl rfl⟩

/-- Environment whose CPU query returns an empty vector. -/
def c7envA : Env := { baseEnv with cpuVec := [], memVec := [("redis-0", 50)] }

/-- Environment whose memory query returns an empty vector. -/
def c7envB : Env := { baseEnv with cpuVec := [("redis-0", 50)], memVec := [] }

/-- Environment whose queries return data only for the standby pod, so
the joined sample list is empty. -/
def c7envC : Env := { baseEnv with cpuVec := [("redis-8", 50)], memVec := [("redis-8", 40)] }

/-- Stable cluster used for the monitoring theorems. -/
def c7cluster : RedisCluster :=
  { Name := "redis", Namespace := "default", Spec := c1spec, Status := stableStatus }

/-- C7 counterexample: on a monitoring tick whose CPU query result is
empty, monitorMetrics (reached through the handleAutoScaling dispatch)
returns a non-nil error to the reconciler, instead of skipping the tick
silently. -/
theorem claim7_counterexample :
    dispatchBranch c7cluster.Status = ScalingBranch.monitoring ∧
      (handleAutoScaling c7cluster c7envA).error =
        some "no CPU metrics data available" ∧
      (handleAutoScaling c7cluster c7envA).cluster = c7cluster ∧
      (handleAutoScaling c7cluster c7envA).actions = [] := by
  refine ⟨?_, ?_, ?_, ?_⟩ <;> decide

/-- C7 (amended): an empty CPU or memory query result makes
monitorMetrics return the query error to the reconciler together with a
requeue delay and no status mutation; the silent skip happens only when
both queries return data but the joined sample list (standby excluded,
memory-joined) is empty. -/
theorem claim7_metric_starvation (c : RedisCluster) (envA envB envC : Env)
    (hAh : envA.healthy = true) (hAr : envA.reshardJobRunning = false)
    (hAcpu : envA.cpuVec = [])
    (hBh : envB.healthy = true) (hBr : envB.reshardJobRunning = false)
    (hBcpu : envB.cpuVec ≠ []) (hBmem : envB.memVec = [])
    (hCh : envC.healthy = true) (hCr : envC.reshardJobRunning = false)
    (hCcpu : envC.cpuVec ≠ []) (hCmem : envC.memVec ≠ [])
    (hCjoin : joinPodLoads c.Status.StandbyPod envC.memVec envC.cpuVec = []) :
    ((monitorMetrics c envA).error = some "no CPU metrics data available" ∧
      (monitorMetrics c envA).cluster = c ∧
      (monitorMetrics c envA).actions = [] ∧
      (monitorMetrics c envA).result = requeueAfter c.Spec.MetricsQueryInterval) ∧
    ((monitorMetrics c envB).error = some "no memory metrics data available" ∧
      (monitorMetrics c envB).cluster = c ∧
      (monitorMetrics c envB).actions = [] ∧
      (monitorMetrics c envB).result = requeueAfter c.Spec.MetricsQueryInterval) ∧
    ((monitorMetrics c envC).error = none ∧
      (monitorMetrics c envC).cluster = c ∧
      (monitorMetrics c envC).actions = [] ∧
      (monitorMetrics c envC).result = requeueAfter c.Spec.MetricsQueryInterval) := by
  refine ⟨?_, ?_, ?_⟩
  · simp [monitorMetrics, queryPodMetrics, queryCPUMetrics, hAh, hAr, hAcpu]
  · simp [monitorMetrics, queryPodMetrics, queryCPUMetrics, queryMemoryMetrics,
      hBh, hBr, hBcpu, hBmem]
  · simp [monitorMetrics, queryPodMetrics, queryCPUMetrics, queryMemoryMetrics,
      hCh, hCr, hCcpu, hCmem, hCjoin]

/-- Witness for the amended C7 theorem at concrete environments. -/
theorem claim7_witness :
    (c7envA.cpuVec = [] ∧ c7envB.memVec = [] ∧
      joinPodLoads c7cluster.Status.StandbyPod c7envC.memVec c7envC.cpuVec = []) ∧
      (((monitorMetrics c7cluster c7envA).error =
          some "no CPU metrics data available" ∧
        (monitorMetrics c7cluster c7envA).cluster = c7cluster ∧
        (monitorMetrics c7cluster c7envA).actions = [] ∧
        (monitorMetrics c7cluster c7envA).result =
          requeueAfter c7cluster.Spec.MetricsQueryInterval) ∧
      ((monitorMetrics c7cluster c7envB).error =
          some "no memory metrics data available" ∧
        (monitorMetrics c7cluster c7envB).cluster = c7cluster ∧
        (monitorMetrics c7cluster c7envB).actions = [] ∧
        (monitorMetrics c7cluster c7envB).result =
          requeueAfter c7cluster.Spec.MetricsQueryInterval) ∧
      ((monitorMetrics c7cluster c7envC).error = none ∧
        (monitorMetrics c7cluster c7envC).cluster = c7cluster ∧
        (monitorMetrics c7cluster c7envC).actions = [] ∧
        (monitorMetrics c7cluster c7envC).result =
          requeueAfter c7cluster.Spec.MetricsQueryInterval)) :=
  ⟨⟨rfl, rfl, by decide⟩,
    claim7_metric_starvation c7cluster c7envA c7envB c7envC rfl rfl rfl rfl rfl
      (by decide) rfl rfl rfl (by decide) (by decide) (by decide)⟩

/-! ### Theorems: spec validation -/

/-- C8: after defaulting, ValidateSpec reports an error exactly when the
CPU threshold is not above its low threshold, or the memory threshold is
not above its low threshold, or Masters is below MinMasters, or
existing-cluster mode has an empty pod selector or service name (the
service-name case cannot fire after defaulting); and on any validation
error the Reconcile head performs no reconciliation work and returns the
error. -/
theorem claim8_validate_spec_iff (c : RedisCluster) :
    ((validateSpec (setDefaults c)).isSome ↔
      ((setDefaults c).Spec.CpuThreshold ≤ (setDefaults c).Spec.CpuThresholdLow ∨
        (setDefaults c).Spec.MemoryThreshold ≤ (setDefaults c).Spec.MemoryThresholdLow ∨
        (setDefaults c).Spec.Masters < (setDefaults c).Spec.MinMasters ∨
        ((setDefaults c).Spec.ExistingCluster = true ∧
          ((setDefaults c).Spec.PodSelector = [] ∨
            (setDefaults c).Spec.ServiceName = "")))) ∧
      (∀ e, validateSpec (setDefaults c) = some e →
        (reconcileHead c).2.1 = [] ∧ (reconcileHead c).2.2 = some e) := by
  constructor
  · unfold validateSpec
    split_ifs with h1 h2 h3 h4 h5 h6 <;>
      simp_all [List.length_eq_zero, le_of_not_le, not_lt]
  · intro e he
    unfold reconcileHead
    rw [he]
    exact ⟨rfl, rfl⟩

/-- Invalid cluster for the C8 witness: existing-cluster mode without a
pod selector. -/
def c8invalid : RedisCluster :=
  { Name := "redis", Namespace := "default"
    Spec := { c1spec with ExistingCluster := true, PodSelector := [] }
    Status := stableStatus }

/-- Witness for C8 at a concrete invalid cluster. -/
theorem claim8_witness :
    validateSpec (setDefaults c8invalid) = some ValidationError.podSelectorRequired ∧
      (reconcileHead c8invalid).2.1 = [] ∧
      (reconcileHead c8invalid).2.2 = some ValidationError.podSelectorRequired :=
  ⟨by decide,
    (claim8_validate_spec_iff c8invalid).2 ValidationError.podSelectorRequired
      (by decide)⟩

/-! ### Theorems: no terminal Failed phase -/

/-- Cluster mid-provisioning for the join-failure instantiations. -/
def c9cluster : RedisCluster :=
  { Name := "redis", Namespace := "default", Spec := c1spec
    Status := { stableStatus with IsProvisioningStandby := true } }

/-- Environment observing the new standby pod ready and the join-nodes
job failed four times, beyond its backoff limit of three. -/
def c9env : Env :=
  { baseEnv with standbyPodObs := some ⟨true, true⟩, joinJob := some ⟨0, 4⟩ }

/-- C9 counterexample: a join-nodes job observed as failed beyond its
backoff limit clears the provisioning flag and the next dispatch is
stable monitoring; the status schema carries no Failed phase at all, so
the cluster does not stay in any terminal failed state. -/
theorem claim9_counterexample :
    c9cluster.Status.IsProvisioningStandby = true ∧
      (checkProvisioningStatus c9cluster c9env).cluster.Status.IsProvisioningStandby =
        false ∧
      dispatchBranch (checkProvisioningStatus c9cluster c9env).cluster.Status =
        ScalingBranch.monitoring ∧
      (checkProvisioningStatus c9cluster c9env).result = requeueAfter 10 := by
  refine ⟨?_, ?_, ?_, ?_⟩ <;> decide

/-- C9 (amended): there is no bounded retry count and no terminal Failed
phase; a failure of any of the three scaling protocols (reshard job,
drain job, join-nodes job) clears the corresponding in-progress flag and
the next handleAutoScaling dispatch is the stable monitoring branch. -/
theorem claim9_failures_return_to_monitoring
    (cR cD cP : RedisCluster) (envR envD envP : Env) (jR jD jP : JobStatus)
    (hRs : jR.Succeeded = 0) (hRf : 0 < jR.Failed)
    (hDs : jD.Succeeded = 0) (hDf : 0 < jD.Failed)
    (hPs : jP.Succeeded = 0) (hPf : 0 < jP.Failed)
    (hRsts : envR.stsSpecReplicas = (cR.Spec.Masters + 1) * (1 + cR.Spec.ReplicasPerMaster))
    (hRready : envR.stsReadyReplicas = (cR.Spec.Masters + 1) * (1 + cR.Spec.ReplicasPerMaster))
    (hRjob : envR.reshardJob = some jR)
    (hRd : cR.Status.IsDraining = false) (hRp : cR.Status.IsProvisioningStandby = false)
    (hDjob : envD.drainJob = some jD)
    (hDr : cD.Status.IsResharding = false) (hDp : cD.Status.IsProvisioningStandby = false)
    (hPpod : envP.standbyPodObs = some ⟨true, true⟩)
    (hPjob : envP.joinJob = some jP)
    (hPd : cP.Status.IsDraining = false) (hPr : cP.Status.IsResharding = false) :
    ((checkReshardingStatus cR envR).cluster.Status.IsResharding = false ∧
      dispatchBranch (checkReshardingStatus cR envR).cluster.Status =
        ScalingBranch.monitoring) ∧
    ((checkDrainStatus cD envD).cluster.Status.IsDraining = false ∧
      dispatchBranch (checkDrainStatus cD envD).cluster.Status =
        ScalingBranch.monitoring) ∧
    ((checkProvisioningStatus cP envP).cluster.Status.IsProvisioningStandby = false ∧
      dispatchBranch (checkProvisioningStatus cP envP).cluster.Status =
        ScalingBranch.monitoring) := by
  have hRs' : ¬ (0 < jR.Succeeded) := by
    rw [hRs]
    exact lt_irrefl 0
  have hDs' : ¬ (0 < jD.Succeeded) := by
    rw [hDs]
    exact lt_irrefl 0
  have hPs' : ¬ (0 < jP.Succeeded) := by
    rw [hPs]
    exact lt_irrefl 0
  refine ⟨?_, ?_, ?_⟩
  · simp [checkReshardingStatus, hRsts, hRready, hRjob, hRs', hRf,
      dispatchBranch, hRd, hRp]
  · simp [checkDrainStatus, hDjob, hDs', hDf, clearDrainStatus,
      dispatchBranch, hDr, hDp]
  · simp [checkProvisioningStatus, hPpod, hPjob, hPs', hPf,
      dispatchBranch, hPd, hPr]

/-- Witness for the amended C9 theorem at concrete clusters and failed
jobs for all three protocols. -/
theorem claim9_witness :
    (c6envR.reshardJob = some ⟨0, 1⟩ ∧ c6env.drainJob = some ⟨0, 1⟩ ∧
      c9env.joinJob = some ⟨0, 4⟩) ∧
      (((checkReshardingStatus c4cluster c6envR).cluster.Status.IsResharding = false ∧
        dispatchBranch (checkReshardingStatus c4cluster c6envR).cluster.Status =
          ScalingBranch.monitoring) ∧
      ((checkDrainStatus c6cluster c6env).cluster.Status.IsDraining = false ∧
        dispatchBranch (checkDrainStatus c6cluster c6env).cluster.Status =
          ScalingBranch.monitoring) ∧
      ((checkProvisioningStatus c9cluster c9env).cluster.Status.IsProvisioningStandby =
          false ∧
        dispatchBranch (checkProvisioningStatus c9cluster c9env).cluster.Status =
          ScalingBranch.monitoring)) :=
  ⟨⟨rfl, rfl, rfl⟩,
    claim9_failures_return_to_monitoring c4cluster c6cluster c9cluster
      c6envR c6env c9env ⟨0, 1⟩ ⟨0, 1⟩ ⟨0, 4⟩ rfl (by decide) rfl (by decide) rfl
      (by decide) (by decide) (by decide) rfl (by decide) (by decide) rfl
      (by decide) (by decide) rfl rfl (by decide) (by decide)⟩

/-! ### Theorems: incomplete protocol witnesses -/

/-- Cluster whose resharding flag is set while the standby witness is
missing and the overload witness is still present. -/
def c10cluster : RedisCluster :=
  { Name := "redis", Namespace := "default", Spec := c1spec
    Status := { stableStatus with
      IsResharding := true
      OverloadedPod := "redis-2"
      StandbyPod := "" } }

/-- Cluster whose draining flag is set with no drain witnesses at all. -/
def c10dcluster : RedisCluster :=
  { Name := "redis", Namespace := "default", Spec := c1spec
    Status := { stableStatus with IsDraining := true } }

/-- C10 counterexample: with IsResharding set, StandbyPod empty and
OverloadedPod still recorded, the tick clears the flag but leaves the
OverloadedPod witness in place, so the witness fields are not all
cleared. -/
theorem claim10_counterexample :
    c10cluster.Status.IsResharding = true ∧
      c10cluster.Status.StandbyPod = "" ∧
      c10cluster.Status.OverloadedPod = "redis-2" ∧
      (checkReshardingStatus c10cluster baseEnv).cluster.Status.IsResharding = false ∧
      (checkReshardingStatus c10cluster baseEnv).cluster.Status.OverloadedPod =
        "redis-2" := by
  refine ⟨?_, ?_, ?_, ?_, ?_⟩ <;> decide

/-- C10 (amended): a tick that reaches the job-creation step with a
scaling flag set but incomplete witnesses abandons the protocol and
creates no job, and the next dispatch is stable monitoring; the drain
path clears the flag and all three drain witnesses, while the reshard
path clears only the IsResharding flag, leaving OverloadedPod as it
was. -/
theorem claim10_incomplete_witness_abandons (cR cD : RedisCluster) (envR envD : Env)
    (hRsts : envR.stsSpecReplicas = (cR.Spec.Masters + 1) * (1 + cR.Spec.ReplicasPerMaster))
    (hRready : envR.stsReadyReplicas = (cR.Spec.Masters + 1) * (1 + cR.Spec.ReplicasPerMaster))
    (hRjob : envR.reshardJob = none)
    (hRinc : cR.Status.OverloadedPod = "" ∨ cR.Status.StandbyPod = "")
    (hRd : cR.Status.IsDraining = false) (hRp : cR.Status.IsProvisioningStandby = false)
    (hDjob : envD.drainJob = none)
    (hDinc : cD.Status.PodToDrain = "" ∨ cD.Status.DrainDestPod1 = "")
    (hDr : cD.Status.IsResharding = false) (hDp : cD.Status.IsProvisioningStandby = false) :
    ((checkReshardingStatus cR envR).cluster.Status =
        { cR.Status with IsResharding := false } ∧
      (∀ a ∈ (checkReshardingStatus cR envR).actions, a.isCreateJob = false) ∧
      dispatchBranch (checkReshardingStatus cR envR).cluster.Status =
        ScalingBranch.monitoring) ∧
    ((checkDrainStatus cD envD).cluster.Status = clearDrainStatus cD.Status ∧
      (∀ a ∈ (checkDrainStatus cD envD).actions, a.isCreateJob = false) ∧
      dispatchBranch (checkDrainStatus cD envD).cluster.Status =
        ScalingBranch.monitoring) := by
  constructor
  · by_cases hop : cR.Status.OverloadedPod = ""
    · simp [checkReshardingStatus, hRsts, hRready, hRjob, hop,
        Action.isCreateJob, dispatchBranch, hRd, hRp]
    · have hsb : cR.Status.StandbyPod = "" := by
        rcases hRinc with h | h
        · exact absurd h hop
        · exact h
      simp [checkReshardingStatus, hRsts, hRready, hRjob, hop, hsb,
        Action.isCreateJob, dispatchBranch, hRd, hRp]
  · simp [checkDrainStatus, hDjob, hDinc, clearDrainStatus,
      Action.isCreateJob, dispatchBranch, hDr, hDp]

/-- Witness for the amended C10 theorem at concrete clusters with
incomplete witnesses. -/
theorem claim10_witness :
    ((c10cluster.Status.OverloadedPod = "" ∨ c10cluster.Status.StandbyPod = "") ∧
      (c10dcluster.Status.PodToDrain = "" ∨ c10dcluster.Status.DrainDestPod1 = "")) ∧
      (((checkReshardingStatus c10cluster baseEnv).cluster.Status =
          { c10cluster.Status with IsResharding := false } ∧
        (∀ a ∈ (checkReshardingStatus c10cluster baseEnv).actions,
          a.isCreateJob = false) ∧
        dispatchBranch (checkReshardingStatus c10cluster baseEnv).cluster.Status =
          ScalingBranch.monitoring) ∧
      ((checkDrainStatus c10dcluster baseEnv).cluster.Status =
          clearDrainStatus c10dcluster.Status ∧
        (∀ a ∈ (checkDrainStatus c10dcluster baseEnv).actions,
          a.isCreateJob = false) ∧
        dispatchBranch (checkDrainStatus c10dcluster baseEnv).cluster.Status =
          ScalingBranch.monitoring)) :=
  ⟨⟨by decide, by decide⟩,
    claim10_incomplete_witness_abandons c10cluster c10dcluster baseEnv baseEnv
      (by decide) (by decide) rfl (by decide) (by decide) (by decide) rfl
      (by decide) (by decide) (by decide)⟩

end RedisAutoscaler
